import Mathlib

/-!
Shallow embedding of the jito-solana relayer proxy client
(`core/src/proxy/relayer_stage.rs`), the tip manager
(`core/src/tip_manager.rs`) and the stake-meta snapshot generator
(`tip-distributor/src/stake_meta_generator_workflow.rs`), with theorems
checking the natural-language specification against the code.

Conventions of the embedding:
* `u64` values are `Nat` with explicit saturation / checked arithmetic where
  the source uses `saturating_*` / `checked_*`.
* Durations and `Instant`s are `Nat` (a global monotone clock); `elapsed`
  is truncated subtraction, which agrees with `Instant::elapsed` whenever
  `now` is at or after the recorded instant.
* Fallible operations (`expect`, `checked_sub(..).expect`, channel sends,
  URI parsing) are `Option` / `Except`, or take an explicit success flag
  where the failure originates outside the source (channel receivers,
  tonic's URI parser).
* Opaque external values (pubkeys, packets, socket addresses) are `Nat`s
  or pairs of `Nat`s; external functions (proto-to-native packet
  conversion, program-derived-address computation, the frozen bank) are
  universally quantified parameters.
-/

namespace JitoSolana

/-! ## Machine-integer helpers (`u64` semantics used by the source) -/

/-- Largest value of a `u64`. -/
def U64_MAX : Nat := 2 ^ 64 - 1

/-- `u64::saturating_add`. -/
def satAdd64 (a b : Nat) : Nat := min (a + b) U64_MAX

/-- `u64::saturating_mul`. -/
def satMul64 (a b : Nat) : Nat := min (a * b) U64_MAX

/-- `u64::checked_sub`: `none` exactly on underflow. -/
def checkedSub (a b : Nat) : Option Nat := if b ≤ a then some (a - b) else none

/-- `u64::checked_add`: `none` exactly on overflow past `U64_MAX`. -/
def checkedAdd64 (a b : Nat) : Option Nat :=
  if a + b ≤ U64_MAX then some (a + b) else none

theorem satAdd64_one_of_lt {n : Nat} (h : n < U64_MAX) : satAdd64 n 1 = n + 1 := by
  unfold satAdd64
  omega

/-! ## Rust `str::contains` on literal patterns -/

/-- `chars` of the haystack start with the `chars` of the needle. -/
def charsStartWith : List Char → List Char → Bool
  | _, [] => true
  | [], _ :: _ => false
  | a :: xs, b :: ys => a == b && charsStartWith xs ys

/-- The needle occurs somewhere in the haystack. -/
def charsContain : List Char → List Char → Bool
  | [], needle => needle.isEmpty
  | c :: rest, needle => charsStartWith (c :: rest) needle || charsContain rest needle

/-- Rust `str::contains` with a string pattern. -/
def strContains (hay needle : String) : Bool := charsContain hay.data needle.data

/-! ## `relayer_stage.rs` data model -/

/-- `ProxyError` variants referenced by `relayer_stage.rs`
(defined in `core/src/proxy/mod.rs`, names as used at each `map_err` /
`return Err` site of the source file). -/
inductive ProxyError where
  | GrpcStreamDisconnected
  | HeartbeatExpired
  | HeartbeatChannelError
  | PacketForwardError
  | AuthenticationConnectionTimeout
  | AuthenticationTimeout
  | AuthenticationPermissionDenied
  | AuthenticationConnectionError (msg : String)
  | RelayerConnectionTimeout
  | RelayerConnectionError (msg : String)
  | MethodTimeout (method : String)
  | MethodError (msg : String)
  | MissingTpuSocket (which : String)
deriving Repr, DecidableEq

/-- `RelayerStageStats` (all fields `u64`, `Default` = zero). -/
structure RelayerStageStats where
  num_empty_messages : Nat
  num_packets : Nat
  num_heartbeats : Nat
deriving Repr, DecidableEq

/-- `RelayerStageStats::default()`. -/
def initStats : RelayerStageStats := ⟨0, 0, 0⟩

/-- The body of a `SubscribePacketsResponse`: `Batch` carries a list of
proto packets (each packet opaque, modelled as `Nat`). -/
inductive Msg where
  | batch (packets : List Nat)
  | heartbeat
deriving Repr, DecidableEq

/-- `relayer::SubscribePacketsResponse` — `msg` is an optional body. -/
structure SubscribePacketsResponse where
  msg : Option Msg
deriving Repr, DecidableEq

/-- `HeartbeatEvent = (SocketAddr, SocketAddr)`, sockets opaque. -/
def HeartbeatEvent := Nat × Nat
deriving instance Repr, DecidableEq for HeartbeatEvent

/-- Observable result of one `handle_relayer_packets` call: the (possibly
updated) `last_heartbeat_ts`, the updated stats, and the values sent on
each of the three downstream channels during the call. -/
structure HandleOutput where
  last_heartbeat_ts : Nat
  stats : RelayerStageStats
  packet_sends : List (List Nat)
  verified_sends : List (List (List Nat) × Option Unit)
  heartbeat_sends : List HeartbeatEvent
deriving Repr, DecidableEq

/-- `RelayerStage::handle_relayer_packets`.

`conv` is `proto_packet_to_packet` (defined outside this file's sources);
`now` is the value `Instant::now()` would return inside the call;
`heartbeat_send_ok` / `packet_send_ok` / `verified_send_ok` say whether the
corresponding crossbeam `send` succeeds (it fails only when the receiver is
disconnected). -/
def handle_relayer_packets (conv : Nat → Nat)
    (resp : SubscribePacketsResponse) (heartbeat_event : HeartbeatEvent) (now : Nat)
    (heartbeat_send_ok packet_send_ok verified_send_ok : Bool)
    (last_heartbeat_ts : Nat) (trust_packets : Bool)
    (stats : RelayerStageStats) : Except ProxyError HandleOutput :=
  match resp.msg with
  | none =>
      .ok { last_heartbeat_ts := last_heartbeat_ts,
            stats := { stats with num_empty_messages := satAdd64 stats.num_empty_messages 1 },
            packet_sends := [], verified_sends := [], heartbeat_sends := [] }
  | some (Msg.batch proto_packets) =>
      if proto_packets.isEmpty then
        .ok { last_heartbeat_ts := last_heartbeat_ts,
              stats := { stats with num_empty_messages := satAdd64 stats.num_empty_messages 1 },
              packet_sends := [], verified_sends := [], heartbeat_sends := [] }
      else
        let packet_batch := proto_packets.map conv
        let stats2 := { stats with num_packets := satAdd64 stats.num_packets packet_batch.length }
        if trust_packets then
          if verified_send_ok then
            .ok { last_heartbeat_ts := last_heartbeat_ts, stats := stats2,
                  packet_sends := [], verified_sends := [([packet_batch], none)],
                  heartbeat_sends := [] }
          else .error ProxyError.PacketForwardError
        else
          if packet_send_ok then
            .ok { last_heartbeat_ts := last_heartbeat_ts, stats := stats2,
                  packet_sends := [packet_batch], verified_sends := [],
                  heartbeat_sends := [] }
          else .error ProxyError.PacketForwardError
  | some Msg.heartbeat =>
      let stats2 := { stats with num_heartbeats := satAdd64 stats.num_heartbeats 1 }
      if heartbeat_send_ok then
        .ok { last_heartbeat_ts := now, stats := stats2,
              packet_sends := [], verified_sends := [], heartbeat_sends := [heartbeat_event] }
      else .error ProxyError.HeartbeatChannelError

/-- The `heartbeat_check_interval.tick()` arm of the select loop:
fail with `HeartbeatExpired` when `last_heartbeat_ts.elapsed()` strictly
exceeds `oldest_allowed_heartbeat`, otherwise do nothing. -/
def heartbeat_check_tick (oldest_allowed_heartbeat now last_heartbeat_ts : Nat) :
    Except ProxyError Unit :=
  if oldest_allowed_heartbeat < now - last_heartbeat_ts then
    .error ProxyError.HeartbeatExpired
  else .ok ()

/-- One stream-message iteration of the select loop, as scheduled by a
session run: the received response, the clock value at that iteration, and
the success of each downstream channel at that moment. -/
structure StreamStep where
  resp : SubscribePacketsResponse
  now : Nat
  heartbeat_send_ok : Bool
  packet_send_ok : Bool
  verified_send_ok : Bool
deriving Repr, DecidableEq

/-- Folding `handle_relayer_packets` over a schedule of stream messages,
starting from `last_heartbeat_ts` (initialized by the source to
`Instant::now()` at session start, line 380) and the current stats.
Returns the final `(last_heartbeat_ts, stats)` or the first fatal error. -/
def run_session (conv : Nat → Nat) (heartbeat_event : HeartbeatEvent)
    (trust_packets : Bool) :
    List StreamStep → Nat → RelayerStageStats →
    Except ProxyError (Nat × RelayerStageStats)
  | [], last_heartbeat_ts, stats => .ok (last_heartbeat_ts, stats)
  | step :: rest, last_heartbeat_ts, stats =>
    match handle_relayer_packets conv step.resp heartbeat_event step.now
        step.heartbeat_send_ok step.packet_send_ok step.verified_send_ok
        last_heartbeat_ts trust_packets stats with
    | .error e => .error e
    | .ok out => run_session conv heartbeat_event trust_packets rest
        out.last_heartbeat_ts out.stats

/-! ## Supervisor loop (`RelayerStage::start`) and connection constants -/

/-- `CONNECTION_BACKOFF_S` (seconds). -/
def CONNECTION_BACKOFF_S : Nat := 5

/-- `CONNECTION_TIMEOUT_S` (seconds). -/
def CONNECTION_TIMEOUT_S : Nat := 10

/-- Observable behavior of one pass through the error `match` in
`RelayerStage::start` (lines 165–181): the error counter after the pass,
the `relayer_stage-proxy_error` datapoint emitted (count and error), if
any, whether the permission-denied warning was logged, and the backoff
slept before the next iteration. -/
structure ConnectErrorOutcome where
  error_count : Nat
  proxy_error_datapoint : Option (Nat × ProxyError)
  warned_permission_denied : Bool
  backoff_sleep_s : Nat
deriving Repr, DecidableEq

/-- The error `match` of `RelayerStage::start`: permission denied only
warns; every other error increments `error_count` and emits a
`relayer_stage-proxy_error` datapoint with the new count and the error;
both paths then sleep `CONNECTION_BACKOFF`. -/
def handle_connect_error (error_count : Nat) (e : ProxyError) : ConnectErrorOutcome :=
  match e with
  | ProxyError.AuthenticationPermissionDenied =>
      { error_count := error_count, proxy_error_datapoint := none,
        warned_permission_denied := true, backoff_sleep_s := CONNECTION_BACKOFF_S }
  | e =>
      { error_count := error_count + 1,
        proxy_error_datapoint := some (error_count + 1, e),
        warned_permission_denied := false, backoff_sleep_s := CONNECTION_BACKOFF_S }

/-! ## Endpoint construction (`RelayerStage::connect_auth_and_stream`) -/

/-- Configuration accumulated on a tonic `Endpoint` by the source:
the URL, whether `tls_config` was attached, and the TCP keepalive. -/
structure EndpointCfg where
  url : String
  tls_enabled : Bool
  tcp_keepalive_s : Option Nat
deriving Repr, DecidableEq

/-- Auth endpoint construction (lines 198–213). `uri_ok` abstracts
`Endpoint::from_shared` URI validation (external to the source). TLS is
attached exactly when the address contains the substring `https`; no TCP
keepalive is set. -/
def build_auth_service_endpoint (uri_ok : String → Bool) (auth_service_addr : String) :
    Except ProxyError EndpointCfg :=
  if uri_ok auth_service_addr then
    .ok { url := auth_service_addr,
          tls_enabled := strContains auth_service_addr ("https"),
          tcp_keepalive_s := none }
  else
    .error (ProxyError.AuthenticationConnectionError
      ("invalid relayer url value: " ++ auth_service_addr))

/-- Backend endpoint construction (lines 214–230): TCP keepalive 60 s is
always set; TLS is attached exactly when the address contains `https`. -/
def build_backend_endpoint (uri_ok : String → Bool) (backend_addr : String) :
    Except ProxyError EndpointCfg :=
  if uri_ok backend_addr then
    .ok { url := backend_addr,
          tls_enabled := strContains backend_addr ("https"),
          tcp_keepalive_s := some 60 }
  else
    .error (ProxyError.RelayerConnectionError
      ("invalid relayer url value: " ++ backend_addr))

/-! ## Metrics tick constants (`consume_packet_stream`, lines 370–371) -/

/-- `METRICS_TICK.as_secs()` for `METRICS_TICK = Duration::from_secs(1)`. -/
def METRICS_TICK_secs : Nat := 1

/-- `refresh_within_s = METRICS_TICK.as_secs().saturating_mul(3).saturating_div(2)`
(`saturating_div` on unsigned is plain division). -/
def refresh_within_s : Nat := satMul64 METRICS_TICK_secs 3 / 2

/-! ## Bank model shared by the stake-meta generator and the tip manager

The frozen bank is an external collaborator ("a function returning a
frozen bank"); it is modelled as its two lookups used by the sources.
Pubkeys are opaque `Nat`s. -/

/-- Opaque account address. -/
abbrev Pubkey := Nat

/-- The parts of an on-chain account the sources read: `lamports()` and
`data().len()`. `Default` (used by `unwrap_or_default`) is the empty
account: zero lamports, empty data. -/
structure AccountModel where
  lamports : Nat
  dataLen : Nat
deriving Repr, DecidableEq

/-- An account bank: `get_account`, `get_minimum_balance_for_rent_exemption`
(a function of the data length only) and the current `epoch`. -/
structure BankModel where
  getAccount : Pubkey → Option AccountModel
  minBalanceForRentExemption : Nat → Nat
  epoch : Nat

/-- `Bank::get_balance`: lamports of the account, `0` when absent. -/
def get_balance (bank : BankModel) (pubkey : Pubkey) : Nat :=
  ((bank.getAccount pubkey).map AccountModel.lamports).getD 0

/-! ## `stake_meta_generator_workflow.rs`: excess tip balances -/

/-- One summand of `excess_tip_balances` (lines 168–177): the account must
exist (`expect("tip account exists")`), and
`lamports.checked_sub(rent_exempt).expect("tip balance underflow")` makes
any underflow fatal. -/
def tip_excess (bank : BankModel) (pubkey : Pubkey) : Option Nat := do
  let acc ← bank.getAccount pubkey
  checkedSub acc.lamports (bank.minBalanceForRentExemption acc.dataLen)

/-- Rust-style short-circuiting `map`+`collect` over a fallible function:
`none` as soon as one element fails. -/
def collectMap (f : α → Option β) : List α → Option (List β)
  | [] => some []
  | x :: xs => do
    let y ← f x
    let ys ← collectMap f xs
    pure (y :: ys)

/-- `excess_tip_balances` of `generate_stake_meta_collection` over the tip
PDAs (the 8 PDAs of `derive_tip_payment_pubkeys`, passed as a list since
the derivation lives outside these sources): the sum of the per-account
excesses, failing if any account is missing or below its rent-exempt
minimum. -/
def excess_tip_balances (bank : BankModel) (tip_pdas : List Pubkey) : Option Nat :=
  (collectMap (tip_excess bank) tip_pdas).map List.sum

/-- The claim's reading of the same computation, following its words: the
sum of `max(0, lamports - rent_exempt(data_len))`, total (never fails);
missing accounts read as the default empty account. Written only to be
compared against `excess_tip_balances`, which is the source's version. -/
def excess_tip_balances_claim (bank : BankModel) (tip_pdas : List Pubkey) : Nat :=
  (tip_pdas.map (fun pubkey =>
    let acc := (bank.getAccount pubkey).getD ⟨0, 0⟩
    acc.lamports - bank.minBalanceForRentExemption acc.dataLen)).sum

/-- A bank holding one tip account whose lamports (3) are below its
rent-exempt minimum (10). -/
def bankBelowRent : BankModel :=
  { getAccount := fun pubkey => if pubkey = 0 then some ⟨3, 0⟩ else none,
    minBalanceForRentExemption := fun _ => 10,
    epoch := 0 }

/-! ## `stake_meta_generator_workflow.rs`: per-vote-account TDA lookup -/

/-- The fields of `TipDistributionAccountWrapper` the crediting rule
touches: the derived address and the (possibly credited) account data. -/
structure TdaWrapper where
  tip_distribution_pubkey : Pubkey
  lamports : Nat
  dataLen : Nat
deriving Repr, DecidableEq

/-- The body of the `epoch_vote_accounts` map in
`generate_stake_meta_collection` (lines 184–213) for one vote account:
derive the `TipDistributionAccount` PDA from
`(tip_distribution_program_id, vote_pubkey, bank.epoch())`; if the account
exists and its address equals `tip_receiver`, credit `excess_tip_balances`
to its lamports (`checked_add(..).expect("tip overflow")`, fatal on `u64`
overflow — the outer `Option`); otherwise record it unmodified.
`derive_tda_address` abstracts `derive_tip_distribution_account_address`
(defined outside these sources). Result: `none` = overflow panic,
`some none` = no TDA account, `some (some w)` = recorded wrapper. -/
def tda_for_vote_account (bank : BankModel)
    (derive_tda_address : Pubkey → Pubkey → Nat → Pubkey)
    (tip_distribution_program_id tip_receiver : Pubkey)
    (excess : Nat) (vote_pubkey : Pubkey) :
    Option (Option TdaWrapper) :=
  let tip_distribution_pubkey :=
    derive_tda_address tip_distribution_program_id vote_pubkey bank.epoch
  match bank.getAccount tip_distribution_pubkey with
  | none => some none
  | some account_data =>
      if tip_distribution_pubkey = tip_receiver then
        match checkedAdd64 account_data.lamports excess with
        | none => none
        | some new_lamports =>
            some (some ⟨tip_distribution_pubkey, new_lamports, account_data.dataLen⟩)
      else
        some (some ⟨tip_distribution_pubkey, account_data.lamports, account_data.dataLen⟩)

/-! ## `tip_manager.rs`: balances above rent exempt -/

/-- `TipManager::get_tip_account_balances_above_rent_exempt` (lines
421–443): for each tip account, `get_account(..).unwrap_or_default()`,
`get_balance`, rent-exempt minimum for the account's data length, and
`balance.checked_sub(rent_exempt).unwrap_or_else(|| 0)` — a warning plus
`0` instead of a failure when the balance is below the minimum. -/
def get_tip_account_balances_above_rent_exempt (bank : BankModel)
    (tip_accounts : List Pubkey) : List (Pubkey × Nat) :=
  tip_accounts.map (fun account =>
    let account_data := (bank.getAccount account).getD ⟨0, 0⟩
    let balance := get_balance bank account
    let rent_exempt := bank.minBalanceForRentExemption account_data.dataLen
    (account,
      match checkedSub balance rent_exempt with
      | some v => v
      | none => 0))

/-! ## Theorems -/

/-- C6: at every metrics tick, `maybe_refresh_auth_tokens` is called with
`refresh_within` equal to the metrics cadence in integer seconds times 1.5
evaluated in integer arithmetic, `1.saturating_mul(3).saturating_div(2)`:
exactly `1`, not `2`. -/
theorem refresh_within_s_is_one_second :
    refresh_within_s = 1 ∧ refresh_within_s ≠ 2 ∧
      refresh_within_s = satMul64 METRICS_TICK_secs 3 / 2 := by
  refine ⟨by decide, by decide, rfl⟩

/-- C2: at a heartbeat-check tick, the session fails with
`HeartbeatExpired` iff the elapsed time since `last_heartbeat_ts` strictly
exceeds `oldest_allowed_heartbeat`; otherwise the tick changes nothing and
the loop continues. -/
theorem heartbeat_tick_expiry (oldest now ts : Nat) :
    (heartbeat_check_tick oldest now ts = .error ProxyError.HeartbeatExpired ↔
      oldest < now - ts)
    ∧ (¬ oldest < now - ts → heartbeat_check_tick oldest now ts = .ok ()) := by
  unfold heartbeat_check_tick
  refine ⟨⟨fun h => ?_, fun h => by simp [h]⟩, fun h => by simp [h]⟩
  by_contra hc
  simp [hc] at h

/-- C2 witness: with `oldest_allowed_heartbeat = 1500`, a tick 2000 after
the last heartbeat expires, a tick 1000 after it does not. -/
theorem heartbeat_tick_expiry_witness :
    heartbeat_check_tick 1500 2000 0 = .error ProxyError.HeartbeatExpired ∧
    heartbeat_check_tick 1500 1000 0 = .ok () := by
  exact ⟨(heartbeat_tick_expiry 1500 2000 0).1.mpr (by decide),
    (heartbeat_tick_expiry 1500 1000 0).2 (by decide)⟩

/-- C7: in the supervisor loop, `AuthenticationPermissionDenied` produces
only a warn log — no `error_count` increment, no
`relayer_stage-proxy_error` datapoint — while any other error increments
`error_count` by 1 and emits a datapoint carrying `(count, error)`; both
paths sleep the fixed 5-second `CONNECTION_BACKOFF`. -/
theorem connect_error_handling (ec : Nat) (e : ProxyError) :
    (e = ProxyError.AuthenticationPermissionDenied →
      handle_connect_error ec e =
        { error_count := ec, proxy_error_datapoint := none,
          warned_permission_denied := true, backoff_sleep_s := 5 })
    ∧ (e ≠ ProxyError.AuthenticationPermissionDenied →
      handle_connect_error ec e =
        { error_count := ec + 1, proxy_error_datapoint := some (ec + 1, e),
          warned_permission_denied := false, backoff_sleep_s := 5 })
    ∧ (handle_connect_error ec e).backoff_sleep_s = CONNECTION_BACKOFF_S := by
  cases e <;> simp [handle_connect_error, CONNECTION_BACKOFF_S]

/-- C7 witness: permission denied at count 0 only warns; a relayer
connection timeout at count 0 increments to 1 and emits `(1, error)`. -/
theorem connect_error_handling_witness :
    handle_connect_error 0 ProxyError.AuthenticationPermissionDenied =
      { error_count := 0, proxy_error_datapoint := none,
        warned_permission_denied := true, backoff_sleep_s := 5 } ∧
    handle_connect_error 0 ProxyError.RelayerConnectionTimeout =
      { error_count := 1,
        proxy_error_datapoint := some (1, ProxyError.RelayerConnectionTimeout),
        warned_permission_denied := false, backoff_sleep_s := 5 } := by
  exact ⟨(connect_error_handling 0 ProxyError.AuthenticationPermissionDenied).1 rfl,
    (connect_error_handling 0 ProxyError.RelayerConnectionTimeout).2.1 (by decide)⟩

/-- C8: TLS is attached to the auth endpoint iff `auth_service_addr`
contains the substring `https`, and to the backend endpoint iff
`backend_addr` does; the backend endpoint always gets a 60-second TCP
keepalive and the auth endpoint gets none. -/
theorem endpoint_tls_selection (uri_ok : String → Bool)
    (auth_addr backend_addr : String) :
    (∀ e, build_auth_service_endpoint uri_ok auth_addr = .ok e →
      (e.tls_enabled = true ↔ strContains auth_addr ("https") = true) ∧
        e.tcp_keepalive_s = none)
    ∧ (∀ e, build_backend_endpoint uri_ok backend_addr = .ok e →
      (e.tls_enabled = true ↔ strContains backend_addr ("https") = true) ∧
        e.tcp_keepalive_s = some 60) := by
  constructor
  · intro e he
    unfold build_auth_service_endpoint at he
    split at he
    · injection he with h
      subst h
      exact ⟨Iff.rfl, rfl⟩
    · exact Except.noConfusion he
  · intro e he
    unfold build_backend_endpoint at he
    split at he
    · injection he with h
      subst h
      exact ⟨Iff.rfl, rfl⟩
    · exact Except.noConfusion he

/-- C8 witness: an `https` auth address gets TLS and no keepalive; an
`http` backend address gets no TLS and the 60-second keepalive. -/
theorem endpoint_tls_selection_witness :
    strContains ("https://a") ("https") = true ∧
    build_auth_service_endpoint (fun _ => true) ("https://a") =
      .ok (EndpointCfg.mk ("https://a") true none) ∧
    build_backend_endpoint (fun _ => true) ("http://b") =
      .ok (EndpointCfg.mk ("http://b") false (some 60)) := by
  refine ⟨?_, by rfl, by rfl⟩
  exact (((endpoint_tls_selection (fun _ => true) ("https://a") ("http://b")).1
    (EndpointCfg.mk ("https://a") true none) (by rfl)).1).mp (by decide)

/-- C9: a message with no body, or a `Batch` with an empty packet list,
increments `num_empty_messages` by exactly 1 and changes nothing else: no
send on any channel, `last_heartbeat_ts` and the other counters unchanged,
result `Ok`. -/
theorem empty_message_only_bumps_counter
    (conv : Nat → Nat) (resp : SubscribePacketsResponse) (ev : HeartbeatEvent)
    (now : Nat) (hb pk vf : Bool) (ts : Nat) (tp : Bool)
    (stats : RelayerStageStats)
    (hempty : resp.msg = none ∨ resp.msg = some (Msg.batch []))
    (hlt : stats.num_empty_messages < U64_MAX) :
    handle_relayer_packets conv resp ev now hb pk vf ts tp stats =
      .ok { last_heartbeat_ts := ts,
            stats := { stats with
              num_empty_messages := stats.num_empty_messages + 1 },
            packet_sends := [], verified_sends := [], heartbeat_sends := [] } := by
  rcases hempty with h | h <;>
    simp [handle_relayer_packets, h, satAdd64_one_of_lt hlt]

/-- C9 witness: a bodiless message at zeroed stats yields `Ok` with only
`num_empty_messages = 1`. -/
theorem empty_message_only_bumps_counter_witness :
    initStats.num_empty_messages < U64_MAX ∧
    handle_relayer_packets (fun p => p) ⟨none⟩ (0, 0) 9 true true true 4 false
        initStats =
      .ok { last_heartbeat_ts := 4, stats := ⟨1, 0, 0⟩,
            packet_sends := [], verified_sends := [], heartbeat_sends := [] } := by
  refine ⟨by decide, ?_⟩
  exact empty_message_only_bumps_counter (fun p => p) ⟨none⟩ (0, 0) 9 true true
    true 4 false initStats (Or.inl rfl) (by decide)

/-- C1: for a received `Batch` with a non-empty packet list, the converted
batch is sent on exactly one downstream channel, chosen by
`trust_packets`: on `verified_packet_tx` paired with `None` tracer stats
when true, else on `packet_tx`; the same batch never appears on both; and
a failed send ends the session with `PacketForwardError`. -/
theorem batch_routed_to_exactly_one_channel
    (conv : Nat → Nat) (resp : SubscribePacketsResponse) (ev : HeartbeatEvent)
    (now : Nat) (hb pk vf : Bool) (ts : Nat) (tp : Bool)
    (stats : RelayerStageStats) (proto_packets : List Nat)
    (hmsg : resp.msg = some (Msg.batch proto_packets)) (hne : proto_packets ≠ []) :
    (tp = true → vf = true →
      handle_relayer_packets conv resp ev now hb pk vf ts tp stats =
        .ok { last_heartbeat_ts := ts,
              stats := { stats with num_packets := satAdd64 stats.num_packets (proto_packets.map conv).length },
              packet_sends := [],
              verified_sends := [([proto_packets.map conv], none)],
              heartbeat_sends := [] })
    ∧ (tp = false → pk = true →
      handle_relayer_packets conv resp ev now hb pk vf ts tp stats =
        .ok { last_heartbeat_ts := ts,
              stats := { stats with num_packets := satAdd64 stats.num_packets (proto_packets.map conv).length },
              packet_sends := [proto_packets.map conv],
              verified_sends := [],
              heartbeat_sends := [] })
    ∧ (tp = true → vf = false →
      handle_relayer_packets conv resp ev now hb pk vf ts tp stats =
        .error ProxyError.PacketForwardError)
    ∧ (tp = false → pk = false →
      handle_relayer_packets conv resp ev now hb pk vf ts tp stats =
        .error ProxyError.PacketForwardError)
    ∧ (∀ out, handle_relayer_packets conv resp ev now hb pk vf ts tp stats = .ok out →
        out.packet_sends = [] ∨ out.verified_sends = []) := by
  cases proto_packets with
  | nil => exact absurd rfl hne
  | cons p ps =>
    cases tp <;> cases pk <;> cases vf <;>
      simp [handle_relayer_packets, hmsg]

/-- C1 witness: an untrusted session with a working `packet_tx` forwards a
one-packet batch on `packet_tx` only. -/
theorem batch_routed_to_exactly_one_channel_witness :
    handle_relayer_packets (fun p => p + 1) ⟨some (Msg.batch [5])⟩ (0, 0) 9 true
        true true 4 false initStats =
      .ok { last_heartbeat_ts := 4, stats := ⟨0, 1, 0⟩,
            packet_sends := [[6]], verified_sends := [], heartbeat_sends := [] } := by
  exact (batch_routed_to_exactly_one_channel (fun p => p + 1)
    ⟨some (Msg.batch [5])⟩ (0, 0) 9 true true true 4 false initStats [5] rfl
    (by decide)).2.1 rfl rfl

/-- If a call to `handle_relayer_packets` succeeds, the resulting
`last_heartbeat_ts` is either the incoming one (non-heartbeat messages) or
the current instant (heartbeat messages). -/
theorem handle_last_heartbeat_ts_cases
    (conv : Nat → Nat) (resp : SubscribePacketsResponse) (ev : HeartbeatEvent)
    (now : Nat) (hb pk vf : Bool) (ts : Nat) (tp : Bool)
    (stats : RelayerStageStats) (out : HandleOutput)
    (h : handle_relayer_packets conv resp ev now hb pk vf ts tp stats = .ok out) :
    out.last_heartbeat_ts = ts ∨ out.last_heartbeat_ts = now := by
  unfold handle_relayer_packets at h
  repeat' split at h
  all_goals
    first
    | exact Except.noConfusion h
    | (injection h with h2; subst h2; simp)

/-- A `≤`-chain survives lowering its head. -/
theorem chain_le_of_le {a b : Nat} {l : List Nat} (hab : a ≤ b)
    (h : List.Chain (fun x y => x ≤ y) b l) : List.Chain (fun x y => x ≤ y) a l := by
  cases h with
  | nil => exact List.Chain.nil
  | cons hbc hc => exact List.Chain.cons (le_trans hab hbc) hc

/-- C4: within a session, `last_heartbeat_ts` is monotonically
non-decreasing when the per-iteration clock values are chronological (it
starts at the session start and is only ever overwritten with the current
instant on a `Heartbeat`); receiving a `Heartbeat` sets it to now,
increments `num_heartbeats` by 1 and sends the cached `HeartbeatEvent` on
`heartbeat_tx`, and a failed heartbeat send ends the session with
`HeartbeatChannelError`. -/
theorem last_heartbeat_ts_monotone :
    (∀ (conv : Nat → Nat) (ev : HeartbeatEvent) (tp : Bool)
        (steps : List StreamStep) (ts0 : Nat) (stats0 : RelayerStageStats)
        (ts1 : Nat) (stats1 : RelayerStageStats),
      List.Chain (fun a b => a ≤ b) ts0 (steps.map StreamStep.now) →
      run_session conv ev tp steps ts0 stats0 = .ok (ts1, stats1) → ts0 ≤ ts1)
    ∧ (∀ (conv : Nat → Nat) (resp : SubscribePacketsResponse)
        (ev : HeartbeatEvent) (now : Nat) (hb pk vf : Bool) (ts : Nat) (tp : Bool)
        (stats : RelayerStageStats),
      resp.msg = some Msg.heartbeat → stats.num_heartbeats < U64_MAX →
      (hb = true →
        handle_relayer_packets conv resp ev now hb pk vf ts tp stats =
          .ok { last_heartbeat_ts := now,
                stats := { stats with num_heartbeats := stats.num_heartbeats + 1 },
                packet_sends := [], verified_sends := [],
                heartbeat_sends := [ev] })
      ∧ (hb = false →
        handle_relayer_packets conv resp ev now hb pk vf ts tp stats =
          .error ProxyError.HeartbeatChannelError)) := by
  constructor
  · intro conv ev tp steps
    induction steps with
    | nil =>
      intro ts0 stats0 ts1 stats1 _ hrun
      simp [run_session, Prod.ext_iff] at hrun
      exact le_of_eq hrun.1
    | cons step rest ih =>
      intro ts0 stats0 ts1 stats1 hchain hrun
      cases hchain with
      | cons h1 h2 =>
        simp only [run_session] at hrun
        split at hrun
        · exact Except.noConfusion hrun
        · rename_i out hh
          have hts := handle_last_heartbeat_ts_cases conv step.resp ev step.now
            step.heartbeat_send_ok step.packet_send_ok step.verified_send_ok
            ts0 tp stats0 out hh
          have hchain2 : List.Chain (fun a b => a ≤ b) out.last_heartbeat_ts
              (rest.map StreamStep.now) := by
            rcases hts with h | h
            · rw [h]; exact chain_le_of_le h1 h2
            · rw [h]; exact h2
          have hle : ts0 ≤ out.last_heartbeat_ts := by
            rcases hts with h | h <;> omega
          exact le_trans hle (ih out.last_heartbeat_ts out.stats ts1 stats1 hchain2 hrun)
  · intro conv resp ev now hb pk vf ts tp stats hmsg hlt
    constructor <;> intro hhb <;> subst hhb <;>
      simp [handle_relayer_packets, hmsg, satAdd64_one_of_lt hlt]

/-- C4 witness: a session that starts at 0 and receives one heartbeat at 5
ends with `last_heartbeat_ts = 5 ≥ 0` and one heartbeat counted. -/
theorem last_heartbeat_ts_monotone_witness :
    run_session (fun p => p) (0, 0) false
      [⟨⟨some Msg.heartbeat⟩, 5, true, true, true⟩] 0 initStats =
      .ok (5, ⟨0, 0, 1⟩) ∧ (0 : Nat) ≤ 5 := by
  refine ⟨by rfl, ?_⟩
  exact last_heartbeat_ts_monotone.1 (fun p => p) (0, 0) false
    [⟨⟨some Msg.heartbeat⟩, 5, true, true, true⟩] 0 initStats 5 ⟨0, 0, 1⟩
    (List.Chain.cons (by omega) List.Chain.nil) (by rfl)

/-- Unfolding `excess_tip_balances` over a cons cell. -/
theorem excess_tip_balances_cons (bank : BankModel) (x : Pubkey) (xs : List Pubkey) :
    excess_tip_balances bank (x :: xs) =
      (tip_excess bank x).bind
        (fun v => (excess_tip_balances bank xs).map (fun s => v + s)) := by
  cases htx : tip_excess bank x with
  | none => simp [excess_tip_balances, collectMap, htx]
  | some v =>
    cases hcm : collectMap (tip_excess bank) xs with
    | none => simp [excess_tip_balances, collectMap, htx, hcm]
    | some l => simp [excess_tip_balances, collectMap, htx, hcm, List.sum_cons]

/-- C3 counterexample: on a bank whose sole tip account holds 3 lamports
against a 10-lamport rent-exempt minimum, the source's
`excess_tip_balances` fails (the `checked_sub(..).expect` panics, modelled
as `none`) instead of contributing `max(0, 3 - 10) = 0` as the claim
states. -/
theorem excess_tip_balances_underflow_cex :
    excess_tip_balances bankBelowRent [0] = none ∧
    excess_tip_balances bankBelowRent [0] ≠
      some (excess_tip_balances_claim bankBelowRent [0]) := by
  exact ⟨by decide, by decide⟩

/-- C3 amended: `excess_tip_balances` equals the sum of
`lamports - rent_exempt(data_len)` over the tip PDAs whenever every tip
account exists with lamports at or above its rent-exempt minimum (in which
case it coincides with the claim's `Σ max(0, ..)` reading); an account
below its minimum does not contribute 0 — it makes the whole computation
fail. -/
theorem excess_tip_balances_amended (bank : BankModel) (tip_pdas : List Pubkey) :
    ((∀ pubkey ∈ tip_pdas, ∃ acc, bank.getAccount pubkey = some acc ∧
        bank.minBalanceForRentExemption acc.dataLen ≤ acc.lamports) →
      excess_tip_balances bank tip_pdas =
        some (excess_tip_balances_claim bank tip_pdas))
    ∧ (∀ pubkey acc, pubkey ∈ tip_pdas → bank.getAccount pubkey = some acc →
        acc.lamports < bank.minBalanceForRentExemption acc.dataLen →
        excess_tip_balances bank tip_pdas = none) := by
  constructor
  · induction tip_pdas with
    | nil => intro _; rfl
    | cons x xs ih =>
      intro hall
      obtain ⟨acc, hget, hge⟩ := hall x (List.mem_cons_self x xs)
      have hx : tip_excess bank x =
          some (acc.lamports - bank.minBalanceForRentExemption acc.dataLen) := by
        simp [tip_excess, hget, checkedSub, hge]
      have hxs := ih (fun p hp => hall p (List.mem_cons_of_mem _ hp))
      rw [excess_tip_balances_cons, hx, hxs]
      simp [excess_tip_balances_claim, hget]
  · induction tip_pdas with
    | nil => intro p a hmem; cases hmem
    | cons x xs ih =>
      intro p a hmem hget hlt
      rw [excess_tip_balances_cons]
      rcases List.mem_cons.mp hmem with h | h
      · subst h
        have hx : tip_excess bank p = none := by
          simp [tip_excess, hget, checkedSub]
          omega
        rw [hx]
        rfl
      · have hnone := ih p a h hget hlt
        rw [hnone]
        cases tip_excess bank x <;> rfl

/-- A bank whose sole tip account (pubkey 3) holds 3010 lamports against a
10-lamport rent-exempt minimum. -/
def bankAboveRent : BankModel :=
  { getAccount := fun pubkey => if pubkey = 3 then some ⟨3010, 0⟩ else none,
    minBalanceForRentExemption := fun _ => 10,
    epoch := 0 }

/-- C3 amended witness: with every tip account at or above its rent-exempt
minimum, the source's computation succeeds and yields the claim's sum. -/
theorem excess_tip_balances_amended_witness :
    excess_tip_balances bankAboveRent [3] =
      some (excess_tip_balances_claim bankAboveRent [3]) ∧
    excess_tip_balances bankAboveRent [3] = some 3000 := by
  refine ⟨?_, by decide⟩
  exact (excess_tip_balances_amended bankAboveRent [3]).1 (fun p hp => by
    simp at hp
    subst hp
    exact ⟨⟨3010, 0⟩, rfl, by decide⟩)

/-- C5: for each vote account, the TDA PDA is derived from
`(tip_distribution_program_id, vote_pubkey, bank.epoch())`; a missing
account is recorded as absent; an existing account whose address equals
`tip_receiver` is recorded with `excess_tip_balances` added to its
lamports; any other existing account is recorded with its lamports
unmodified. -/
theorem tda_crediting (bank : BankModel)
    (derive_tda_address : Pubkey → Pubkey → Nat → Pubkey)
    (pid tip_receiver : Pubkey) (excess vote_pubkey : Nat) :
    (bank.getAccount (derive_tda_address pid vote_pubkey bank.epoch) = none →
      tda_for_vote_account bank derive_tda_address pid tip_receiver excess
        vote_pubkey = some none)
    ∧ (∀ acc, bank.getAccount (derive_tda_address pid vote_pubkey bank.epoch) =
          some acc →
        derive_tda_address pid vote_pubkey bank.epoch = tip_receiver →
        acc.lamports + excess ≤ U64_MAX →
        tda_for_vote_account bank derive_tda_address pid tip_receiver excess
          vote_pubkey =
          some (some ⟨derive_tda_address pid vote_pubkey bank.epoch,
            acc.lamports + excess, acc.dataLen⟩))
    ∧ (∀ acc, bank.getAccount (derive_tda_address pid vote_pubkey bank.epoch) =
          some acc →
        derive_tda_address pid vote_pubkey bank.epoch ≠ tip_receiver →
        tda_for_vote_account bank derive_tda_address pid tip_receiver excess
          vote_pubkey =
          some (some ⟨derive_tda_address pid vote_pubkey bank.epoch,
            acc.lamports, acc.dataLen⟩)) := by
  refine ⟨fun h => ?_, fun acc hget heq hle => ?_, fun acc hget hne => ?_⟩
  · simp [tda_for_vote_account, h]
  · subst heq
    simp [tda_for_vote_account, hget, checkedAdd64, hle]
  · simp [tda_for_vote_account, hget, hne]

/-- A bank for the crediting witness: the derived TDA addresses 102 and
103 exist with 50 and 20 lamports. -/
def bankTda : BankModel :=
  { getAccount := fun pubkey =>
      if pubkey = 102 then some ⟨50, 8⟩
      else if pubkey = 103 then some ⟨20, 8⟩ else none,
    minBalanceForRentExemption := fun n => n,
    epoch := 7 }

/-- C5 witness: with `tip_receiver = 102` and excess 7, vote account 2
(whose derived TDA is 102) is credited 50 + 7 = 57, while vote account 3
(derived TDA 103) keeps its 20 lamports unmodified. -/
theorem tda_crediting_witness :
    tda_for_vote_account bankTda (fun _ v e => v + e + 93) 1 102 7 2 =
      some (some ⟨102, 57, 8⟩) ∧
    tda_for_vote_account bankTda (fun _ v e => v + e + 93) 1 102 7 3 =
      some (some ⟨103, 20, 8⟩) := by
  constructor
  · exact (tda_crediting bankTda (fun _ v e => v + e + 93) 1 102 7 2).2.1
      ⟨50, 8⟩ rfl rfl (by decide)
  · exact (tda_crediting bankTda (fun _ v e => v + e + 93) 1 102 7 3).2.2
      ⟨20, 8⟩ rfl (by decide)

/-- `checked_sub(..).unwrap_or_else(|| 0)` is truncated subtraction. -/
theorem checkedSub_getD_zero (a b : Nat) :
    (match checkedSub a b with | some v => v | none => 0) = a - b := by
  unfold checkedSub
  by_cases h : b ≤ a
  · rw [if_pos h]
  · rw [if_neg h]
    show 0 = a - b
    omega

/-- C10: `get_tip_account_balances_above_rent_exempt` is total — every tip
account yields `max(0, balance - rent_exempt)` (truncated subtraction), a
below-minimum account yielding 0 instead of an error and a missing account
reading as the default empty account — in contrast with the stake-meta
generator's `excess_tip_balances`, which fails on the same underflow. -/
theorem tip_balances_above_rent_total (bank : BankModel)
    (tip_accounts : List Pubkey) :
    (get_tip_account_balances_above_rent_exempt bank tip_accounts =
      tip_accounts.map (fun pubkey =>
        (pubkey, get_balance bank pubkey -
          bank.minBalanceForRentExemption
            (((bank.getAccount pubkey).getD ⟨0, 0⟩).dataLen))))
    ∧ (∀ pubkey acc, bank.getAccount pubkey = some acc →
        acc.lamports < bank.minBalanceForRentExemption acc.dataLen →
        get_tip_account_balances_above_rent_exempt bank [pubkey] = [(pubkey, 0)])
    ∧ (get_tip_account_balances_above_rent_exempt bankBelowRent [0] = [(0, 0)] ∧
        excess_tip_balances bankBelowRent [0] = none) := by
  refine ⟨?_, fun pubkey acc hget hlt => ?_, by decide, by decide⟩
  · unfold get_tip_account_balances_above_rent_exempt
    apply List.map_congr_left
    intro a _
    dsimp only
    rw [checkedSub_getD_zero]
  · unfold get_tip_account_balances_above_rent_exempt
    simp only [List.map_cons, List.map_nil, checkedSub_getD_zero]
    have hbal : get_balance bank pubkey = acc.lamports := by
      simp [get_balance, hget]
    rw [hget]
    simp only [Option.getD_some, hbal]
    have : acc.lamports - bank.minBalanceForRentExemption acc.dataLen = 0 := by omega
    rw [this]

/-- C10 witness: the below-rent bank's tip account yields `(0, 0)` via the
total function while the generator's computation fails there. -/
theorem tip_balances_above_rent_total_witness :
    bankBelowRent.getAccount 0 = some ⟨3, 0⟩ ∧
    (3 : Nat) < bankBelowRent.minBalanceForRentExemption 0 ∧
    get_tip_account_balances_above_rent_exempt bankBelowRent [0] = [(0, 0)] := by
  refine ⟨rfl, by decide, ?_⟩
  exact (tip_balances_above_rent_total bankBelowRent [0]).2.1 0 ⟨3, 0⟩ rfl (by decide)

end JitoSolana
